import Mathlib

/-!
Verification development for a small HTTP gateway (`src/index.js`) that
forwards text, image, document and audio inputs to a generative-AI API.

The embedding models the JavaScript values the program manipulates
(`JsVal`), the response-text extractor `extractText`, the payload builder
`fileToGenerativePart` with its base64 encoding, the per-handler request
assembly, and the four request handlers' validation and error paths.
-/

set_option maxHeartbeats 1000000

/-- A JavaScript value as far as this program observes them: `null`,
`undefined`, booleans, (integer) numbers, strings, arrays and plain
objects with string keys. -/
inductive JsVal where
  | null : JsVal
  | undefined : JsVal
  | bool : Bool → JsVal
  | num : Int → JsVal
  | str : String → JsVal
  | arr : List JsVal → JsVal
  | obj : List (String × JsVal) → JsVal

/-- `true` exactly for JavaScript `null` and `undefined` (the nullish
values, the ones `?.` and `??` test for). -/
def JsVal.isNullish : JsVal → Bool
  | .null => true
  | .undefined => true
  | _ => false

/-- JavaScript truthiness (`if (x)`): `null`, `undefined`, `false`, `0`
and `""` are falsy; every other value here is truthy. -/
def JsVal.truthy : JsVal → Bool
  | .null => false
  | .undefined => false
  | .bool b => b
  | .num n => n ≠ 0
  | .str s => s ≠ ""
  | .arr _ => true
  | .obj _ => true

/-- `true` exactly for object values. -/
def JsVal.isObj : JsVal → Bool
  | .obj _ => true
  | _ => false

/-- Optional-chaining property access `v?.k`: `undefined` on a nullish
base or a non-object base or a missing key, the stored value otherwise. -/
def JsVal.oget (v : JsVal) (k : String) : JsVal :=
  match v with
  | .obj fs => (fs.lookup k).getD .undefined
  | _ => .undefined

/-- Optional-chaining index access `v?.[i]`: the `i`-th element of an
array, the `"i"` property of an object, `undefined` otherwise. -/
def JsVal.ogetIdx (v : JsVal) (i : Nat) : JsVal :=
  match v with
  | .arr xs => xs.getD i .undefined
  | .obj fs => (fs.lookup (toString i)).getD .undefined
  | _ => .undefined

/-- The extractor's primary access path
`response?.candidates?.[0]?.content?.parts?.[0]?.text`. -/
def pathA (response : JsVal) : JsVal :=
  (((((response.oget "candidates").ogetIdx 0).oget "content").oget
      "parts").ogetIdx 0).oget "text"

/-- One escaped JSON string character, as `JSON.stringify` produces it. -/
def escapeChar (c : Char) : String :=
  if c = '"' then "\\\""
  else if c = '\\' then "\\\\"
  else if c = '\n' then "\\n"
  else if c = '\t' then "\\t"
  else if c = '\r' then "\\r"
  else if c = '\x08' then "\\b"
  else if c = '\x0c' then "\\f"
  else if c.toNat < 32 then
    "\\u00" ++ String.mk [Nat.digitChar (c.toNat / 16), Nat.digitChar (c.toNat % 16)]
  else String.singleton c

/-- A JSON string literal: the characters escaped, between quotes. -/
def quoteStr (s : String) : String :=
  "\"" ++ String.join (s.toList.map escapeChar) ++ "\""

/-- `n` spaces: the indentation `JSON.stringify(v, null, 2)` puts before
a nested line. -/
def indentGap (n : Nat) : String :=
  String.mk (List.replicate n ' ')

mutual

/-- `JSON.stringify(v, null, 2)` at nesting depth `d`: `none` when the
value serializes to no JSON text at all (`undefined`), the indented JSON
text otherwise. -/
def stringifyVal (d : Nat) : JsVal → Option String
  | .undefined => none
  | .null => some "null"
  | .bool b => some (if b then "true" else "false")
  | .num n => some (toString n)
  | .str s => some (quoteStr s)
  | .arr xs =>
    some (match stringifyItems (d + 1) xs with
      | [] => "[]"
      | items =>
        "[\n" ++ String.intercalate ",\n" items ++ "\n" ++ indentGap (d * 2) ++ "]")
  | .obj fs =>
    some (match stringifyFields (d + 1) fs with
      | [] => "\x7b\x7d"
      | entries =>
        "\x7b\n" ++ String.intercalate ",\n" entries ++ "\n" ++ indentGap (d * 2) ++ "\x7d")

/-- The serialized array elements, one indented line each; an element
that serializes to nothing is rendered `null`, as in `JSON.stringify`. -/
def stringifyItems (d : Nat) : List JsVal → List String
  | [] => []
  | v :: rest =>
    (indentGap (d * 2) ++ (stringifyVal d v).getD "null") :: stringifyItems d rest

/-- The serialized object entries, one indented `"key": value` line each;
an entry whose value serializes to nothing is omitted, as in
`JSON.stringify`. -/
def stringifyFields (d : Nat) : List (String × JsVal) → List String
  | [] => []
  | (k, v) :: rest =>
    match stringifyVal d v with
    | none => stringifyFields d rest
    | some s => (indentGap (d * 2) ++ quoteStr k ++ ": " ++ s) :: stringifyFields d rest

end

/-- `JSON.stringify(v, null, 2)`: `none` exactly when the JavaScript call
returns `undefined` instead of a string. -/
def jsonStringify (v : JsVal) : Option String :=
  stringifyVal 0 v

/-- A Generation Response as the extractor sees it: its enumerable data
properties (`data`), and the behaviour of its `text` method — absent
(`none`, so that calling it throws), or present and either throwing or
returning a value. -/
structure GenResponse where
  data : JsVal
  textMethod : Option (Except String JsVal)

/-- `response?.text()`: `undefined` without a call when the response is
nullish; otherwise a throw when there is no callable `text`, and the
method's own outcome when there is one. -/
def callText (r : GenResponse) : Except String JsVal :=
  if r.data.isNullish then .ok .undefined
  else
    match r.textMethod with
    | none => .error "response.text is not a function"
    | some res => res

/-- `response?.candidates?.[0]?.content?.parts?.[0]?.text ?? response?.text()`:
the path-A value when it is non-nullish, otherwise the outcome of calling
the text method (`??` falls through only on nullish values). -/
def selectText (r : GenResponse) : Except String JsVal :=
  let a := pathA r.data
  if a.isNullish then callText r else .ok a

/-- `extractText(response)` from `src/index.js`: the selected text when it
is truthy, else `JSON.stringify(response, null, 2)`, and the fixed
sentinel string when evaluation threw. -/
def extractText (r : GenResponse) : JsVal :=
  match selectText r with
  | .error _ => .str "Failed to parse AI response."
  | .ok text =>
    if text.truthy then text
    else
      match jsonStringify r.data with
      | some j => .str j
      | none => .undefined

/-- The standard base64 alphabet, in index order. -/
def base64Chars : List Char :=
  "ABCDEFGHIJKLMNOPQRSTUVWXYZabcdefghijklmnopqrstuvwxyz0123456789+/".toList

/-- The base64 digit for a 6-bit value. -/
def b64Char (n : Nat) : Char :=
  base64Chars.getD n 'A'

/-- The 6-bit value of a base64 digit, `none` for a character outside the
alphabet (in particular for the pad character `=`). -/
def b64Index (c : Char) : Option Nat :=
  base64Chars.findIdx? (· = c)

/-- `buffer.toString("base64")` as Node computes it: bytes taken three at
a time into four base64 digits, the final group padded with `=`. -/
def base64Encode : List Nat → List Char
  | [] => []
  | [a] => [b64Char (a / 4), b64Char (a % 4 * 16), '=', '=']
  | [a, b] => [b64Char (a / 4), b64Char (a % 4 * 16 + b / 16), b64Char (b % 16 * 4), '=']
  | a :: b :: c :: rest =>
    b64Char (a / 4) :: b64Char (a % 4 * 16 + b / 16) :: b64Char (b % 16 * 4 + c / 64) ::
      b64Char (c % 64) :: base64Encode rest

/-- Base64 decoding: four digits back to three bytes, a padded final
group back to one or two bytes; `none` on any malformed input. -/
def base64Decode : List Char → Option (List Nat)
  | [] => some []
  | c1 :: c2 :: c3 :: c4 :: rest => do
    let v1 ← b64Index c1
    let v2 ← b64Index c2
    if c3 = '=' then
      if c4 = '=' ∧ rest = [] then pure [v1 * 4 + v2 / 16] else none
    else
      let v3 ← b64Index c3
      if c4 = '=' then
        if rest = [] then pure [v1 * 4 + v2 / 16, v2 % 16 * 16 + v3 / 4] else none
      else do
        let v4 ← b64Index c4
        let tail ← base64Decode rest
        pure ((v1 * 4 + v2 / 16) :: (v2 % 16 * 16 + v3 / 4) :: (v3 % 4 * 64 + v4) :: tail)
  | _ => none

/-- The `inlineData` payload of a generative part: the base64 text and
the MIME type. -/
structure InlineData where
  data : String
  mimeType : String
deriving DecidableEq

/-- The object `fileToGenerativePart` returns. -/
structure GenerativePart where
  inlineData : InlineData
deriving DecidableEq

/-- `fileToGenerativePart(buffer, mimeType)` from `src/index.js`: the
buffer's bytes as base64 text under `inlineData.data`, the MIME type
under `inlineData.mimeType`. -/
def fileToGenerativePart (buffer : List Nat) (mimeType : String) : GenerativePart :=
  { inlineData := { data := String.mk (base64Encode buffer), mimeType } }

/-- One element of the `contents` array a file handler assembles: a plain
prompt string or a generative part. -/
inductive ContentItem where
  | text : String → ContentItem
  | part : GenerativePart → ContentItem
deriving DecidableEq

/-- The argument of an outbound `model.generateContent` call: a bare
prompt string (`/generate-text`) or a `contents` array (file handlers). -/
inductive GenRequest where
  | plain : String → GenRequest
  | parts : List ContentItem → GenRequest
deriving DecidableEq

/-- An uploaded file as multer's memory storage presents it: the raw
bytes and the reported MIME type. -/
structure UploadedFile where
  buffer : List Nat
  mimetype : String

/-- A handler's JSON response body: `\x7b error \x7d` or
`\x7b generatedText \x7d`. -/
inductive RespBody where
  | errorMsg : String → RespBody
  | generated : JsVal → RespBody

/-- JavaScript falsiness of an optional string (`!prompt`): true for a
missing value and for the empty string. -/
def jsFalsy : Option String → Bool
  | none => true
  | some s => s = ""

/-- The `POST /generate-text` handler: the outbound calls it makes, the
HTTP status and the response body, for a given `req.body.prompt` and a
given behaviour `api` of the external call. -/
def generateTextHandler (prompt : Option String)
    (api : GenRequest → Except String GenResponse) :
    List GenRequest × Nat × RespBody :=
  if jsFalsy prompt then ([], 400, .errorMsg "Prompt is required.")
  else
    let req := GenRequest.plain (prompt.getD "")
    match api req with
    | .error e => ([req], 500, .errorMsg e)
    | .ok resp => ([req], 200, .generated (extractText resp))

/-- The `contents` assembly every file handler performs:
`const contents = [part]; if (prompt) contents.unshift(prompt);`. -/
def assembleContents (prompt : Option String) (filePart : GenerativePart) :
    List ContentItem :=
  let contents := [ContentItem.part filePart]
  if jsFalsy prompt then contents else ContentItem.text (prompt.getD "") :: contents

/-- The `POST /generate-from-image` handler, for a given `req.file`,
`req.body.prompt` and external-call behaviour. -/
def generateFromImageHandler (file : Option UploadedFile) (prompt : Option String)
    (api : GenRequest → Except String GenResponse) :
    List GenRequest × Nat × RespBody :=
  match file with
  | none => ([], 400, .errorMsg "Image file is required.")
  | some f =>
    let imagePart := fileToGenerativePart f.buffer f.mimetype
    let req := GenRequest.parts (assembleContents prompt imagePart)
    match api req with
    | .error e => ([req], 500, .errorMsg e)
    | .ok resp => ([req], 200, .generated (extractText resp))

/-- The `POST /generate-from-document` handler. -/
def generateFromDocumentHandler (file : Option UploadedFile) (prompt : Option String)
    (api : GenRequest → Except String GenResponse) :
    List GenRequest × Nat × RespBody :=
  match file with
  | none => ([], 400, .errorMsg "Document file is required.")
  | some f =>
    let docPart := fileToGenerativePart f.buffer f.mimetype
    let req := GenRequest.parts (assembleContents prompt docPart)
    match api req with
    | .error e => ([req], 500, .errorMsg e)
    | .ok resp => ([req], 200, .generated (extractText resp))

/-- The `POST /generate-from-audio` handler. -/
def generateFromAudioHandler (file : Option UploadedFile) (prompt : Option String)
    (api : GenRequest → Except String GenResponse) :
    List GenRequest × Nat × RespBody :=
  match file with
  | none => ([], 400, .errorMsg "Audio file is required.")
  | some f =>
    let audioPart := fileToGenerativePart f.buffer f.mimetype
    let req := GenRequest.parts (assembleContents prompt audioPart)
    match api req with
    | .error e => ([req], 500, .errorMsg e)
    | .ok resp => ([req], 200, .generated (extractText resp))

/-! ## Lemmas about the base64 codec -/

/-- Decoding a base64 digit recovers the 6-bit value it encodes. -/
theorem b64_char_index : ∀ n : Fin 64, b64Index (b64Char n.val) = some n.val := by decide

/-- No base64 digit is the pad character. -/
theorem b64_char_ne_pad : ∀ n : Fin 64, b64Char n.val ≠ '=' := by decide

/-- `b64_char_index`, stated over `Nat` with an explicit bound. -/
theorem b64Index_b64Char {n : Nat} (h : n < 64) : b64Index (b64Char n) = some n :=
  b64_char_index ⟨n, h⟩

/-- `b64_char_ne_pad`, stated over `Nat` with an explicit bound. -/
theorem b64Char_ne_pad {n : Nat} (h : n < 64) : b64Char n ≠ '=' :=
  b64_char_ne_pad ⟨n, h⟩

/-- Base64 round-trip: decoding the encoding of any byte list gives the
bytes back. -/
theorem base64_decode_encode :
    ∀ b : List Nat, (∀ x ∈ b, x < 256) → base64Decode (base64Encode b) = some b := by
  intro b
  induction b using base64Encode.induct with
  | case1 => intro _; rfl
  | case2 a =>
    intro h
    have ha : a < 256 := h a (by simp)
    simp only [base64Encode, base64Decode,
      b64Index_b64Char (show a / 4 < 64 by omega),
      b64Index_b64Char (show a % 4 * 16 < 64 by omega)]
    simp only [Option.bind_eq_bind, Option.some_bind, and_self, if_true, ite_true,
      Option.pure_def, Option.some.injEq, List.cons.injEq, and_true]
    omega
  | case3 a b =>
    intro h
    have ha : a < 256 := h a (by simp)
    have hb : b < 256 := h b (by simp)
    simp only [base64Encode, base64Decode,
      b64Index_b64Char (show a / 4 < 64 by omega),
      b64Index_b64Char (show a % 4 * 16 + b / 16 < 64 by omega),
      b64Index_b64Char (show b % 16 * 4 < 64 by omega),
      b64Char_ne_pad (show b % 16 * 4 < 64 by omega),
      Option.bind_eq_bind, Option.some_bind, ite_false, ite_true, if_true, if_false,
      and_self, Option.pure_def, Option.some.injEq, List.cons.injEq, and_true]
    omega
  | case4 a b c rest ih =>
    intro h
    have ha : a < 256 := h a (by simp)
    have hb : b < 256 := h b (by simp)
    have hc : c < 256 := h c (by simp)
    have hrest : ∀ x ∈ rest, x < 256 := fun x hx => h x (by simp [hx])
    simp only [base64Encode, base64Decode,
      b64Index_b64Char (show a / 4 < 64 by omega),
      b64Index_b64Char (show a % 4 * 16 + b / 16 < 64 by omega),
      b64Index_b64Char (show b % 16 * 4 + c / 64 < 64 by omega),
      b64Index_b64Char (show c % 64 < 64 by omega),
      b64Char_ne_pad (show b % 16 * 4 + c / 64 < 64 by omega),
      b64Char_ne_pad (show c % 64 < 64 by omega),
      ih hrest,
      Option.bind_eq_bind, Option.some_bind, ite_false, ite_true, if_true, if_false,
      and_self, Option.pure_def, Option.some.injEq, List.cons.injEq, and_true]
    omega

/-! ## Claim C3 -/

/-- Claim C3: for every byte sequence `b` and MIME string `m`,
`fileToGenerativePart b m` returns an inline-binary part whose base64
`data` decodes back to exactly `b` and whose `mimeType` equals `m`. -/
theorem fileToGenerativePart_roundtrip (b : List Nat) (m : String)
    (h : ∀ x ∈ b, x < 256) :
    base64Decode ((fileToGenerativePart b m).inlineData.data.toList) = some b ∧
    (fileToGenerativePart b m).inlineData.mimeType = m :=
  ⟨base64_decode_encode b h, rfl⟩

/-- Witness for C3 at the bytes `[72, 105, 33]` and MIME `"image/png"`. -/
theorem fileToGenerativePart_roundtrip_witness :
    (∀ x ∈ [72, 105, 33], x < 256) ∧
    (base64Decode ((fileToGenerativePart [72, 105, 33] "image/png").inlineData.data.toList) =
        some [72, 105, 33] ∧
      (fileToGenerativePart [72, 105, 33] "image/png").inlineData.mimeType = "image/png") :=
  ⟨by decide, fileToGenerativePart_roundtrip [72, 105, 33] "image/png" (by decide)⟩

/-! ## Lemmas about the extractor -/

/-- An object value always serializes to a JSON string. -/
theorem jsonStringify_isObj {v : JsVal} (h : v.isObj = true) :
    ∃ j : String, jsonStringify v = some j := by
  cases v <;> simp [JsVal.isObj] at h
  exact ⟨_, rfl⟩

/-! ## Claim C5 -/

/-- Claim C5: when `response.candidates[0].content.parts[0].text` is the
non-empty string `"hello"`, `extractText` returns `"hello"` — path A has
highest priority. -/
theorem extractText_pathA_hello (r : GenResponse)
    (h : pathA r.data = .str "hello") :
    extractText r = .str "hello" := by
  simp [extractText, selectText, h, JsVal.isNullish, JsVal.truthy]

/-- A response whose path A holds `"hello"`. -/
def helloResp : GenResponse :=
  { data := .obj [("candidates", .arr [.obj [("content",
      .obj [("parts", .arr [.obj [("text", .str "hello")]])])]])],
    textMethod := none }

/-- Witness for C5 at `helloResp`. -/
theorem extractText_pathA_hello_witness :
    pathA helloResp.data = .str "hello" ∧ extractText helloResp = .str "hello" :=
  ⟨rfl, extractText_pathA_hello helloResp rfl⟩

/-! ## Claim C1 -/

/-- A response whose path A holds the empty string while the text method
would return `"fallback"`. -/
def emptyTextResp : GenResponse :=
  { data := .obj [("candidates", .arr [.obj [("content",
      .obj [("parts", .arr [.obj [("text", .str "")]])])]])],
    textMethod := some (.ok (.str "fallback")) }

/-- Counterexample to C1 as stated: with path A equal to the empty string
and `text()` returning `"fallback"`, `extractText` does not return
`"fallback"` — it returns the JSON serialization of the response, because
`??` falls through only on nullish values, not on `""`. -/
theorem extractText_emptyPathA_not_fallback :
    extractText emptyTextResp ≠ .str "fallback" ∧
    extractText emptyTextResp = .str ((jsonStringify emptyTextResp.data).getD "") := by
  have key : extractText emptyTextResp =
      .str ((jsonStringify emptyTextResp.data).getD "") := rfl
  refine ⟨?_, key⟩
  rw [key]
  intro hcontra
  injection hcontra with h2
  exact absurd h2 (by decide)

/-- Claim C1 amended: path B is attempted only when path A is nullish
(`null`/`undefined`); when path A is nullish on a non-nullish response
whose `text()` returns a non-empty string `s`, `extractText` returns `s`.
(When path A is the empty string, the extractor instead falls through to
the JSON serialization.) -/
theorem extractText_textMethod_fallback (r : GenResponse) (s : String)
    (hnn : r.data.isNullish = false)
    (hA : (pathA r.data).isNullish = true)
    (hm : r.textMethod = some (.ok (.str s)))
    (hs : s ≠ "") :
    extractText r = .str s := by
  simp [extractText, selectText, callText, hA, hnn, hm, JsVal.truthy, hs]

/-- A response with no path A whose text method returns `"fallback"`. -/
def fallbackResp : GenResponse :=
  { data := .obj [], textMethod := some (.ok (.str "fallback")) }

/-- Witness for C1 (amended) at `fallbackResp`: path A absent and
`text()` returning `"fallback"` gives `"fallback"`. -/
theorem extractText_textMethod_fallback_witness :
    fallbackResp.data.isNullish = false ∧
    (pathA fallbackResp.data).isNullish = true ∧
    fallbackResp.textMethod = some (.ok (.str "fallback")) ∧
    "fallback" ≠ "" ∧
    extractText fallbackResp = .str "fallback" :=
  ⟨rfl, rfl, rfl, by decide,
    extractText_textMethod_fallback fallbackResp "fallback" rfl rfl rfl (by decide)⟩

/-! ## Claim C2 -/

/-- A response whose path A holds the boolean `true`. -/
def boolTextResp : GenResponse :=
  { data := .obj [("candidates", .arr [.obj [("content",
      .obj [("parts", .arr [.obj [("text", .bool true)]])])]])],
    textMethod := none }

/-- Counterexample to C2 as stated: on a response object whose path-A
`text` field holds the truthy non-string `true`, `extractText` returns
that boolean unchanged, not a string. -/
theorem extractText_not_always_string :
    ¬ ∃ s : String, extractText boolTextResp = .str s := by
  rintro ⟨s, hs⟩
  have h2 : JsVal.bool true = JsVal.str s := hs
  exact JsVal.noConfusion h2

/-- Claim C2 amended: `extractText` never propagates an exception — every
throw inside it yields exactly `"Failed to parse AI response."` — and it
returns a string on every response object provided the value the text
lookup selects, when truthy, is a string (a truthy non-string `text`
value is returned unchanged instead). -/
theorem extractText_total_string (r : GenResponse)
    (hobj : r.data.isObj = true)
    (hstr : ∀ v, selectText r = .ok v → v.truthy = true → ∃ s : String, v = .str s) :
    (∃ s : String, extractText r = .str s) ∧
    (∀ e, selectText r = .error e →
      extractText r = .str "Failed to parse AI response.") := by
  constructor
  · rcases hsel : selectText r with e | v
    · exact ⟨"Failed to parse AI response.", by simp [extractText, hsel]⟩
    · by_cases ht : v.truthy = true
      · obtain ⟨s, rfl⟩ := hstr v hsel ht
        exact ⟨s, by simp [extractText, hsel, ht]⟩
      · obtain ⟨j, hj⟩ := jsonStringify_isObj hobj
        exact ⟨j, by simp [extractText, hsel, Bool.of_not_eq_true ht, hj]⟩
  · intro e he
    simp [extractText, he]

/-- A response selecting a falsy `null` text value. -/
def nullTextResp : GenResponse :=
  { data := .obj [], textMethod := some (.ok .null) }

/-- Witness for C2 (amended) at `nullTextResp`. -/
theorem extractText_total_string_witness :
    nullTextResp.data.isObj = true ∧
    ((∃ s : String, extractText nullTextResp = .str s) ∧
      (∀ e, selectText nullTextResp = .error e →
        extractText nullTextResp = .str "Failed to parse AI response.")) := by
  refine ⟨rfl, extractText_total_string nullTextResp rfl ?_⟩
  intro v hv ht
  have hv2 : (Except.ok JsVal.null : Except String JsVal) = Except.ok v := hv
  injection hv2 with h
  rw [← h] at ht
  exact absurd ht (by decide)

/-! ## Claim C6 -/

/-- A response whose path A holds the truthy number `5`. -/
def numTextResp : GenResponse :=
  { data := .obj [("candidates", .arr [.obj [("content",
      .obj [("parts", .arr [.obj [("text", .num 5)]])])]])],
    textMethod := none }

/-- Counterexample to C6 as stated: `numTextResp`'s paths yield no
non-empty string (path A holds the number `5`) and nothing throws, yet
`extractText` returns that number, not the JSON serialization of the
response. -/
theorem extractText_num_not_json :
    extractText numTextResp ≠ .str ((jsonStringify numTextResp.data).getD "") ∧
    extractText numTextResp = .num 5 := by
  constructor
  · intro hcontra
    have h2 : JsVal.num 5 =
        JsVal.str ((jsonStringify numTextResp.data).getD "") := hcontra
    exact JsVal.noConfusion h2
  · rfl

/-- Claim C6 amended: when the value the text lookup selects is falsy
(rather than merely "not a non-empty string") and no access throws,
`extractText` returns the indented JSON serialization of the response. -/
theorem extractText_json_fallback (r : GenResponse) (v : JsVal) (j : String)
    (hsel : selectText r = .ok v)
    (hfalsy : v.truthy = false)
    (hj : jsonStringify r.data = some j) :
    extractText r = .str j := by
  simp [extractText, hsel, hfalsy, hj]

/-- A response selecting a falsy empty-string text value. -/
def emptyResp : GenResponse :=
  { data := .obj [], textMethod := some (.ok (.str "")) }

/-- Witness for C6 (amended) at `emptyResp`: the serialization of the
empty object. -/
theorem extractText_json_fallback_witness :
    selectText emptyResp = .ok (.str "") ∧
    (JsVal.str "").truthy = false ∧
    jsonStringify emptyResp.data = some "\x7b\x7d" ∧
    extractText emptyResp = .str "\x7b\x7d" :=
  ⟨rfl, by decide, rfl,
    extractText_json_fallback emptyResp (.str "") "\x7b\x7d" rfl (by decide) rfl⟩

/-! ## Lemmas about the handlers -/

/-- The image handler, given a file, issues exactly one outbound call,
carrying the assembled `contents`. -/
theorem imageHandler_calls (f : UploadedFile) (p : Option String)
    (api : GenRequest → Except String GenResponse) :
    (generateFromImageHandler (some f) p api).1 =
      [GenRequest.parts (assembleContents p (fileToGenerativePart f.buffer f.mimetype))] := by
  rcases hx : api (GenRequest.parts (assembleContents p (fileToGenerativePart f.buffer f.mimetype))) with e | resp <;>
    simp [generateFromImageHandler, hx]

/-- The document handler, given a file, issues exactly one outbound call,
carrying the assembled `contents`. -/
theorem documentHandler_calls (f : UploadedFile) (p : Option String)
    (api : GenRequest → Except String GenResponse) :
    (generateFromDocumentHandler (some f) p api).1 =
      [GenRequest.parts (assembleContents p (fileToGenerativePart f.buffer f.mimetype))] := by
  rcases hx : api (GenRequest.parts (assembleContents p (fileToGenerativePart f.buffer f.mimetype))) with e | resp <;>
    simp [generateFromDocumentHandler, hx]

/-- The audio handler, given a file, issues exactly one outbound call,
carrying the assembled `contents`. -/
theorem audioHandler_calls (f : UploadedFile) (p : Option String)
    (api : GenRequest → Except String GenResponse) :
    (generateFromAudioHandler (some f) p api).1 =
      [GenRequest.parts (assembleContents p (fileToGenerativePart f.buffer f.mimetype))] := by
  rcases hx : api (GenRequest.parts (assembleContents p (fileToGenerativePart f.buffer f.mimetype))) with e | resp <;>
    simp [generateFromAudioHandler, hx]

/-- A non-empty prompt is prepended before the binary part. -/
theorem assembleContents_some {p : String} (filePart : GenerativePart) (hp : p ≠ "") :
    assembleContents (some p) filePart =
      [ContentItem.text p, ContentItem.part filePart] := by
  simp [assembleContents, jsFalsy, hp]

/-- With no prompt, the contents are the binary part alone. -/
theorem assembleContents_none (filePart : GenerativePart) :
    assembleContents none filePart = [ContentItem.part filePart] := rfl

/-! ## Claim C4 -/

/-- Claim C4: in every file-upload handler, the Generation Request passed
to the external call is `[p, B]` when the prompt `p` is non-empty and
`[B]` when the prompt is absent, with the prompt always preceding the
binary part `B` built from the uploaded file. -/
theorem handlers_request_composition (f : UploadedFile) (p : String)
    (api : GenRequest → Except String GenResponse) (hp : p ≠ "") :
    ((generateFromImageHandler (some f) (some p) api).1 =
        [GenRequest.parts [ContentItem.text p,
          ContentItem.part (fileToGenerativePart f.buffer f.mimetype)]] ∧
      (generateFromImageHandler (some f) none api).1 =
        [GenRequest.parts [ContentItem.part (fileToGenerativePart f.buffer f.mimetype)]]) ∧
    ((generateFromDocumentHandler (some f) (some p) api).1 =
        [GenRequest.parts [ContentItem.text p,
          ContentItem.part (fileToGenerativePart f.buffer f.mimetype)]] ∧
      (generateFromDocumentHandler (some f) none api).1 =
        [GenRequest.parts [ContentItem.part (fileToGenerativePart f.buffer f.mimetype)]]) ∧
    ((generateFromAudioHandler (some f) (some p) api).1 =
        [GenRequest.parts [ContentItem.text p,
          ContentItem.part (fileToGenerativePart f.buffer f.mimetype)]] ∧
      (generateFromAudioHandler (some f) none api).1 =
        [GenRequest.parts [ContentItem.part (fileToGenerativePart f.buffer f.mimetype)]]) := by
  refine ⟨⟨?_, ?_⟩, ⟨?_, ?_⟩, ?_, ?_⟩ <;>
    simp [imageHandler_calls, documentHandler_calls, audioHandler_calls,
      assembleContents_some _ hp, assembleContents_none]

/-- Witness for C4 at a concrete file, prompt and external call. -/
theorem handlers_request_composition_witness :
    ("Describe this." ≠ "") ∧
    ((generateFromImageHandler (some ⟨[1, 2, 3], "image/png"⟩) (some "Describe this.")
          (fun _ => .error "down")).1 =
        [GenRequest.parts [ContentItem.text "Describe this.",
          ContentItem.part (fileToGenerativePart [1, 2, 3] "image/png")]] ∧
      (generateFromImageHandler (some ⟨[1, 2, 3], "image/png"⟩) none
          (fun _ => .error "down")).1 =
        [GenRequest.parts [ContentItem.part (fileToGenerativePart [1, 2, 3] "image/png")]]) ∧
    ((generateFromDocumentHandler (some ⟨[1, 2, 3], "image/png"⟩) (some "Describe this.")
          (fun _ => .error "down")).1 =
        [GenRequest.parts [ContentItem.text "Describe this.",
          ContentItem.part (fileToGenerativePart [1, 2, 3] "image/png")]] ∧
      (generateFromDocumentHandler (some ⟨[1, 2, 3], "image/png"⟩) none
          (fun _ => .error "down")).1 =
        [GenRequest.parts [ContentItem.part (fileToGenerativePart [1, 2, 3] "image/png")]]) ∧
    ((generateFromAudioHandler (some ⟨[1, 2, 3], "image/png"⟩) (some "Describe this.")
          (fun _ => .error "down")).1 =
        [GenRequest.parts [ContentItem.text "Describe this.",
          ContentItem.part (fileToGenerativePart [1, 2, 3] "image/png")]] ∧
      (generateFromAudioHandler (some ⟨[1, 2, 3], "image/png"⟩) none
          (fun _ => .error "down")).1 =
        [GenRequest.parts [ContentItem.part (fileToGenerativePart [1, 2, 3] "image/png")]]) :=
  ⟨by decide,
    handlers_request_composition ⟨[1, 2, 3], "image/png"⟩ "Describe this."
      (fun _ => .error "down") (by decide)⟩

/-! ## Claim C7 -/

/-- Claim C7: `POST /generate-text` with no `prompt` in the body answers
400 with `error: "Prompt is required."`, and `POST /generate-from-image`
with no uploaded `image` file answers 400 with
`error: "Image file is required."`, whatever the external call would do. -/
theorem validation_returns_400 :
    (∀ api, generateTextHandler none api =
      ([], 400, .errorMsg "Prompt is required.")) ∧
    (∀ p api, generateFromImageHandler none p api =
      ([], 400, .errorMsg "Image file is required.")) :=
  ⟨fun _ => rfl, fun _ _ => rfl⟩

/-! ## Claim C8 -/

/-- Claim C8: when the external call rejects with message `m`, each of
the four handlers answers 500 with `error: m`. -/
theorem external_failure_returns_500 (m s : String) (f : UploadedFile)
    (p : Option String) (hs : s ≠ "") :
    (generateTextHandler (some s) (fun _ => .error m)).2 = (500, .errorMsg m) ∧
    (generateFromImageHandler (some f) p (fun _ => .error m)).2 = (500, .errorMsg m) ∧
    (generateFromDocumentHandler (some f) p (fun _ => .error m)).2 = (500, .errorMsg m) ∧
    (generateFromAudioHandler (some f) p (fun _ => .error m)).2 = (500, .errorMsg m) := by
  refine ⟨?_, rfl, rfl, rfl⟩
  simp [generateTextHandler, jsFalsy, hs]

/-- Witness for C8 at the message `"quota exceeded"`. -/
theorem external_failure_returns_500_witness :
    ("tell me a story" ≠ "") ∧
    ((generateTextHandler (some "tell me a story") (fun _ => .error "quota exceeded")).2 =
        (500, .errorMsg "quota exceeded") ∧
      (generateFromImageHandler (some ⟨[9], "image/jpeg"⟩) none
          (fun _ => .error "quota exceeded")).2 = (500, .errorMsg "quota exceeded") ∧
      (generateFromDocumentHandler (some ⟨[9], "image/jpeg"⟩) none
          (fun _ => .error "quota exceeded")).2 = (500, .errorMsg "quota exceeded") ∧
      (generateFromAudioHandler (some ⟨[9], "image/jpeg"⟩) none
          (fun _ => .error "quota exceeded")).2 = (500, .errorMsg "quota exceeded")) :=
  ⟨by decide,
    external_failure_returns_500 "quota exceeded" "tell me a story" ⟨[9], "image/jpeg"⟩
      none (by decide)⟩

/-! ## Claim C9 -/

/-- Claim C9: on a validation failure — missing prompt, empty prompt, or
missing file — a handler makes zero outbound calls. -/
theorem validation_no_outbound_call :
    (∀ api, (generateTextHandler none api).1 = []) ∧
    (∀ api, (generateTextHandler (some "") api).1 = []) ∧
    (∀ p api, (generateFromImageHandler none p api).1 = []) ∧
    (∀ p api, (generateFromDocumentHandler none p api).1 = []) ∧
    (∀ p api, (generateFromAudioHandler none p api).1 = []) :=
  ⟨fun _ => rfl, fun _ => rfl, fun _ _ => rfl, fun _ _ => rfl, fun _ _ => rfl⟩

/-! ## Claim C10 -/

/-- Claim C10: `POST /generate-text` treats an empty-string prompt like a
missing one — 400 with `error: "Prompt is required."`, and no outbound
call. -/
theorem emptyPrompt_returns_400 :
    ∀ api, generateTextHandler (some "") api =
      ([], 400, .errorMsg "Prompt is required.") :=
  fun _ => rfl
